import Mathlib

/-!
Verification of the Shopper Baskets mutation hooks of the pwa-kit
commerce-sdk-react package.

Embedded from packages/commerce-sdk-react/src/hooks/ShopperBaskets/mutation.ts:
the ShopperBasketsMutations table and the useShopperBasketsMutation wrapper.

The cache-update matrix (hooks/ShopperBaskets/cache.ts) and the generic
useMutation hook factory (hooks/useMutation.ts) are collaborators of that
file that are not among the sources; they are modelled here from the
specification, with each such definition marked in its doc comment.
-/

namespace PwaKit

/-- The ShopperBasketsMutations table from mutation.ts: each entry pairs the
exported key with the mutation name string it is bound to. -/
def ShopperBasketsMutations : List (String × String) := [
  ("CreateBasket", "createBasket"),
  ("TransferBasket", "transferBasket"),
  ("MergeBasket", "mergeBasket"),
  ("DeleteBasket", "deleteBasket"),
  ("UpdateBasket", "updateBasket"),
  ("UpdateBillingAddressForBasket", "updateBillingAddressForBasket"),
  ("AddCouponToBasket", "addCouponToBasket"),
  ("RemoveCouponFromBasket", "removeCouponFromBasket"),
  ("UpdateCustomerForBasket", "updateCustomerForBasket"),
  ("AddGiftCertificateItemToBasket", "addGiftCertificateItemToBasket"),
  ("RemoveGiftCertificateItemFromBasket", "removeGiftCertificateItemFromBasket"),
  ("UpdateGiftCertificateItemInBasket", "updateGiftCertificateItemInBasket"),
  ("AddItemToBasket", "addItemToBasket"),
  ("RemoveItemFromBasket", "removeItemFromBasket"),
  ("UpdateItemInBasket", "updateItemInBasket"),
  ("AddTaxesForBasketItem", "addTaxesForBasketItem"),
  ("AddPaymentInstrumentToBasket", "addPaymentInstrumentToBasket"),
  ("RemovePaymentInstrumentFromBasket", "removePaymentInstrumentFromBasket"),
  ("UpdatePaymentInstrumentInBasket", "updatePaymentInstrumentInBasket"),
  ("AddPriceBooksToBasket", "addPriceBooksToBasket"),
  ("CreateShipmentForBasket", "createShipmentForBasket"),
  ("RemoveShipmentFromBasket", "removeShipmentFromBasket"),
  ("UpdateShipmentForBasket", "updateShipmentForBasket"),
  ("UpdateShippingAddressForShipment", "updateShippingAddressForShipment"),
  ("UpdateShippingMethodForShipment", "updateShippingMethodForShipment"),
  ("AddTaxesForBasket", "addTaxesForBasket")
]

/-- The ShopperBasketsMutation type of mutation.ts: the set of value strings of
the table, here as the list of values in table order. -/
def ShopperBasketsMutationValues : List String :=
  ShopperBasketsMutations.map Prod.snd

/-- Cache key: an ordered tuple identifying one cached query result,
a resource name plus parameters (spec, section 3). -/
structure CacheKey where
  resource : String
  params : List String
deriving DecidableEq, Repr

/-- Options passed to a Shopper Baskets mutation, restricted to the parameters
the cache recipes inspect: the basketId path parameter of basket-scoped
operations, and the source basket identity of merge/transfer operations. -/
structure MutationOptions where
  basketId : Option String
  sourceBasketId : Option String
deriving DecidableEq, Repr

/-- Response payload of a mutation, restricted to what the cache recipes
inspect: the identity of the basket returned by the server (none for
operations such as deleteBasket that return no body). -/
structure ResponseData where
  basketId : Option String
deriving DecidableEq, Repr

/-- A cache action over cache keys: invalidate all cached queries of a
resource, invalidate one key, update (insert or patch) one key, or remove
one key (spec, section 3). -/
inductive CacheAction where
  | invalidateRes (resource : String)
  | invalidateKey (key : CacheKey)
  | update (key : CacheKey)
  | remove (key : CacheKey)
deriving DecidableEq, Repr

/-- Resource name of the single-basket query. -/
def basketResource : String := "basket"

/-- Resource name of the list-of-baskets query (baskets of a customer). -/
def basketListResource : String := "customerBaskets"

/-- Cache key of the single-basket query for a given basket identity. -/
def basketKey (basketId : String) : CacheKey :=
  ⟨basketResource, [basketId]⟩

/-- Whether this action invalidates the given cache key. -/
def CacheAction.invalidates : CacheAction → CacheKey → Bool
  | .invalidateRes r, k => k.resource == r
  | .invalidateKey key, k => key == k
  | _, _ => false

/-- Whether this action invalidates or removes the given cache key. -/
def CacheAction.invalidatesOrRemoves : CacheAction → CacheKey → Bool
  | .invalidateRes r, k => k.resource == r
  | .invalidateKey key, k => key == k
  | .remove key, k => key == k
  | .update _, _ => false

/-- Whether some action in the list invalidates the given cache key. -/
def actionsInvalidate (acts : List CacheAction) (k : CacheKey) : Bool :=
  acts.any fun a => a.invalidates k

/-- Whether some action in the list invalidates or removes the given key. -/
def actionsInvalidateOrRemove (acts : List CacheAction) (k : CacheKey) : Bool :=
  acts.any fun a => a.invalidatesOrRemoves k

/-- The externally-owned query cache, as the list of cached query keys, each
flagged stale (true) or fresh (false). -/
abbrev CacheState := List (CacheKey × Bool)

/-- Modelled from the spec: the invalidate/update/remove primitives of the
external query-cache engine (section 6), applied to one cache action. -/
def applyAction (c : CacheState) : CacheAction → CacheState
  | .invalidateRes r => c.map fun e => if e.1.resource == r then (e.1, true) else e
  | .invalidateKey k => c.map fun e => if e.1 == k then (e.1, true) else e
  | .update k => (k, false) :: c.filter fun e => e.1 != k
  | .remove k => c.filter fun e => e.1 != k

/-- Apply a list of cache actions to the cache, left to right. -/
def applyActions (acts : List CacheAction) (c : CacheState) : CacheState :=
  acts.foldl applyAction c

/-- Cache-update entry: a function from mutation options, response data and
the current cache to the list of cache actions (spec, section 3). -/
abbrev CacheUpdateGetter :=
  MutationOptions → ResponseData → CacheState → List CacheAction

/-- Modelled from the spec: the cache recipe of createBasket (section 4.2):
invalidate every cached list-of-baskets query and insert the cache entry of
the created basket, identified by the response payload. -/
def createBasketGetter : CacheUpdateGetter := fun _opts data _cache =>
  CacheAction.invalidateRes basketListResource ::
    (match data.basketId with
      | some id => [CacheAction.update (basketKey id)]
      | none => [])

/-- Modelled from the spec: the cache recipe of deleteBasket (section 4.2):
invalidate every cached list-of-baskets query and remove the cache entry of
the deleted basket, identified by the basketId option. -/
def deleteBasketGetter : CacheUpdateGetter := fun opts _data _cache =>
  CacheAction.invalidateRes basketListResource ::
    (match opts.basketId with
      | some id => [CacheAction.remove (basketKey id)]
      | none => [])

/-- Modelled from the spec: the cache recipe shared by mergeBasket and
transferBasket (section 4.2 edge case): both basket identities are covered,
the source basket entry is removed (that basket is deleted or handed over)
and the destination basket entry, identified by the returned basket, is
invalidated and updated; list-of-baskets queries are invalidated as well. -/
def mergeTransferGetter : CacheUpdateGetter := fun opts data _cache =>
  CacheAction.invalidateRes basketListResource ::
    (match opts.sourceBasketId with
      | some id => [CacheAction.remove (basketKey id)]
      | none => []) ++
    (match data.basketId with
      | some id =>
        [CacheAction.invalidateKey (basketKey id), CacheAction.update (basketKey id)]
      | none => [])

/-- Modelled from the spec: the cache recipe shared by every basket-scoped
mutation that modifies a basket or one of its sub-resources (section 4.2):
invalidate the cached query of the parent basket, identified by the basketId
option, because server-computed aggregate totals may have changed. -/
def subResourceGetter : CacheUpdateGetter := fun opts _data _cache =>
  match opts.basketId with
  | some id => [CacheAction.invalidateKey (basketKey id)]
  | none => []

/-- The mutations that modify a sub-resource of a basket: item, shipment,
payment instrument, coupon, gift certificate, billing address, taxes. -/
def subResourceMutations : List String := [
  "updateBillingAddressForBasket",
  "addCouponToBasket",
  "removeCouponFromBasket",
  "addGiftCertificateItemToBasket",
  "removeGiftCertificateItemFromBasket",
  "updateGiftCertificateItemInBasket",
  "addItemToBasket",
  "removeItemFromBasket",
  "updateItemInBasket",
  "addTaxesForBasketItem",
  "addPaymentInstrumentToBasket",
  "removePaymentInstrumentFromBasket",
  "updatePaymentInstrumentInBasket",
  "createShipmentForBasket",
  "removeShipmentFromBasket",
  "updateShipmentForBasket",
  "updateShippingAddressForShipment",
  "updateShippingMethodForShipment",
  "addTaxesForBasket"
]

/-- The basket-scoped mutations that are neither create/delete nor
merge/transfer: the sub-resource mutations plus the remaining updates of the
basket itself (custom properties, customer information, price books). -/
def basketScopedMutations : List String :=
  subResourceMutations ++
    ["updateBasket", "updateCustomerForBasket", "addPriceBooksToBasket"]

/-- Modelled from the spec: the cacheUpdateMatrix of
hooks/ShopperBaskets/cache.ts (not among the sources), the declarative table
with one cache-update entry per mutation (section 4.2). -/
def cacheUpdateMatrix (mutation : String) : Option CacheUpdateGetter :=
  if mutation == "createBasket" then some createBasketGetter
  else if mutation == "deleteBasket" then some deleteBasketGetter
  else if mutation == "mergeBasket" || mutation == "transferBasket" then
    some mergeTransferGetter
  else if basketScopedMutations.contains mutation then some subResourceGetter
  else none

/-- The status a hook surfaces to the caller (spec, section 6). -/
inductive MutationStatus where
  | idle
  | loading
  | success
  | error
deriving DecidableEq, Repr

/-- The state a hook surfaces: status, result data, error (spec, section 6).
Errors of the underlying HTTP client are carried as opaque strings. -/
structure HookState where
  status : MutationStatus
  data : Option ResponseData
  error : Option String
deriving DecidableEq, Repr

/-- Result of one API client method call: a successful response payload or an
error from the underlying HTTP client. -/
abbrev ApiResult := Except String ResponseData

/-- The API client: one method per mutation name, each a typed
request-to-response function. -/
abbrev ApiClient := String → MutationOptions → ApiResult

/-- Log of API client method calls performed, each recorded as the method name
together with the options it was called with. -/
abbrev CallLog := List (String × MutationOptions)

/-- Outcome of one invocation of a mutation hook: the surfaced hook state, the
resulting query cache, and the call log with the calls this invocation made
appended. -/
structure MutationOutcome where
  state : HookState
  cache : CacheState
  calls : CallLog
deriving DecidableEq, Repr

/-- Modelled from the spec: the generic useMutation hook factory of
hooks/useMutation.ts (an external collaborator, not among the sources).
Section 4.1: one invocation performs exactly one call of the method with the
caller-supplied options; on success it applies the cache-update recipe to the
shared cache and surfaces the response payload; on failure the error is
surfaced unmodified, no cache mutation occurs, and no retry is made. -/
def useMutation (method : MutationOptions → ApiResult) (methodName : String)
    (getCacheUpdates : CacheUpdateGetter) (opts : MutationOptions)
    (cache : CacheState) (log : CallLog) : MutationOutcome :=
  let result := method opts
  let log := log ++ [(methodName, opts)]
  match result with
  | .ok data =>
    ⟨⟨.success, some data, none⟩, applyActions (getCacheUpdates opts data cache) cache, log⟩
  | .error e =>
    ⟨⟨.error, none, some e⟩, cache, log⟩

/-- The useShopperBasketsMutation hook of mutation.ts: looks up the
cache-update entry of the mutation in cacheUpdateMatrix and wires the
corresponding client method together with it through useMutation. Returns
none exactly when the matrix lookup is undefined. -/
def useShopperBasketsMutation (mutation : String) (client : ApiClient) :
    Option (MutationOptions → CacheState → CallLog → MutationOutcome) :=
  match cacheUpdateMatrix mutation with
  | some getCacheUpdates =>
    some fun opts cache log =>
      useMutation (client mutation) mutation getCacheUpdates opts cache log
  | none => none

/-- C10 as stated is false: the ShopperBasketsMutations table has 26 entries,
not 25. -/
theorem shopperBasketsMutations_not_25 :
    ShopperBasketsMutations.length = 26 ∧ ShopperBasketsMutations.length ≠ 25 := by
  decide

/-- C10 (amended): the 26 string values of the ShopperBasketsMutations table
are pairwise distinct, the 26 keys are pairwise distinct as well, and the
ShopperBasketsMutation type is exactly the set of those 26 value strings, so
each accepted mutation name selects a distinct client method. -/
theorem shopperBasketsMutations_distinct :
    ShopperBasketsMutationValues.Nodup ∧
    (ShopperBasketsMutations.map Prod.fst).Nodup ∧
    ShopperBasketsMutationValues.length = 26 := by
  refine ⟨by decide, by decide, by decide⟩

/-- C9: for every value of the ShopperBasketsMutation type the lookup in
cacheUpdateMatrix is defined, and useShopperBasketsMutation yields a hook
exactly when that lookup is defined, so the getter handed to useMutation is
never undefined. -/
theorem cacheUpdateMatrix_defined_on_all_mutations :
    (ShopperBasketsMutationValues.all fun m => (cacheUpdateMatrix m).isSome) = true ∧
    ∀ (client : ApiClient) (m : String),
      (useShopperBasketsMutation m client).isSome = (cacheUpdateMatrix m).isSome := by
  constructor
  · decide
  · intro client m
    unfold useShopperBasketsMutation
    cases cacheUpdateMatrix m <;> rfl

/-- C1: the cache-update entries of createBasket and deleteBasket invalidate
every cached list-of-baskets query, the createBasket entry inserts the cache
entry of the created basket (identified by the response payload), and the
deleteBasket entry removes the cache entry of the deleted basket (identified
by the basketId option). -/
theorem createDeleteBasket_cache_entry
    (opts : MutationOptions) (data : ResponseData) (cache : CacheState)
    (bid cid : String) (hbid : data.basketId = some bid)
    (hcid : opts.basketId = some cid) :
    ∃ fc fd, cacheUpdateMatrix "createBasket" = some fc ∧
      cacheUpdateMatrix "deleteBasket" = some fd ∧
      (∀ e ∈ cache, e.1.resource = basketListResource →
        actionsInvalidate (fc opts data cache) e.1 = true ∧
        actionsInvalidate (fd opts data cache) e.1 = true) ∧
      CacheAction.update (basketKey bid) ∈ fc opts data cache ∧
      CacheAction.remove (basketKey cid) ∈ fd opts data cache := by
  refine ⟨createBasketGetter, deleteBasketGetter, rfl, rfl, ?_, ?_, ?_⟩
  · intro e he hr
    constructor <;>
      simp [actionsInvalidate, createBasketGetter, deleteBasketGetter,
        CacheAction.invalidates, hr]
  · simp [createBasketGetter, hbid]
  · simp [deleteBasketGetter, hcid]

/-- Witness for C1: concrete options, payload and cache. -/
theorem createDeleteBasket_cache_entry_witness :
    ∃ fc fd, cacheUpdateMatrix "createBasket" = some fc ∧
      cacheUpdateMatrix "deleteBasket" = some fd ∧
      (∀ e ∈ ([(⟨basketListResource, ["c1"]⟩, false)] : CacheState),
        e.1.resource = basketListResource →
        actionsInvalidate (fc ⟨some "b2", none⟩ ⟨some "b1"⟩
          [(⟨basketListResource, ["c1"]⟩, false)]) e.1 = true ∧
        actionsInvalidate (fd ⟨some "b2", none⟩ ⟨some "b1"⟩
          [(⟨basketListResource, ["c1"]⟩, false)]) e.1 = true) ∧
      CacheAction.update (basketKey "b1") ∈ fc ⟨some "b2", none⟩ ⟨some "b1"⟩
        [(⟨basketListResource, ["c1"]⟩, false)] ∧
      CacheAction.remove (basketKey "b2") ∈ fd ⟨some "b2", none⟩ ⟨some "b1"⟩
        [(⟨basketListResource, ["c1"]⟩, false)] :=
  createDeleteBasket_cache_entry ⟨some "b2", none⟩ ⟨some "b1"⟩
    [(⟨basketListResource, ["c1"]⟩, false)] "b1" "b2" rfl rfl

/-- C2: for every mutation that modifies a sub-resource of a basket, the
cache-update entry of cacheUpdateMatrix includes an invalidation of the
cached query of the parent basket. -/
theorem subResource_invalidates_parent_basket
    (m : String) (hm : m ∈ subResourceMutations)
    (opts : MutationOptions) (id : String) (hid : opts.basketId = some id)
    (data : ResponseData) (cache : CacheState) :
    ∃ f, cacheUpdateMatrix m = some f ∧
      CacheAction.invalidateKey (basketKey id) ∈ f opts data cache ∧
      actionsInvalidate (f opts data cache) (basketKey id) = true := by
  have hmtx : cacheUpdateMatrix m = some subResourceGetter := by
    fin_cases hm <;> rfl
  refine ⟨subResourceGetter, hmtx, ?_, ?_⟩
  · simp [subResourceGetter, hid]
  · simp [subResourceGetter, hid, actionsInvalidate, CacheAction.invalidates]

/-- Witness for C2 at addItemToBasket with a concrete basket identity. -/
theorem subResource_invalidates_parent_basket_witness :
    ∃ f, cacheUpdateMatrix "addItemToBasket" = some f ∧
      CacheAction.invalidateKey (basketKey "b1") ∈ f ⟨some "b1", none⟩ ⟨some "b1"⟩ [] ∧
      actionsInvalidate (f ⟨some "b1", none⟩ ⟨some "b1"⟩ []) (basketKey "b1") = true :=
  subResource_invalidates_parent_basket "addItemToBasket" (by decide)
    ⟨some "b1", none⟩ "b1" rfl ⟨some "b1"⟩ []

/-- C3: for mergeBasket and transferBasket the cache-update entry produces
invalidate/remove actions covering both affected basket identities, the
source basket and the destination basket. -/
theorem mergeTransfer_covers_both_baskets
    (m : String) (hm : m = "mergeBasket" ∨ m = "transferBasket")
    (opts : MutationOptions) (data : ResponseData) (cache : CacheState)
    (src dst : String) (hs : opts.sourceBasketId = some src)
    (hd : data.basketId = some dst) :
    ∃ f, cacheUpdateMatrix m = some f ∧
      actionsInvalidateOrRemove (f opts data cache) (basketKey src) = true ∧
      actionsInvalidateOrRemove (f opts data cache) (basketKey dst) = true := by
  have hmtx : cacheUpdateMatrix m = some mergeTransferGetter := by
    rcases hm with rfl | rfl <;> rfl
  refine ⟨mergeTransferGetter, hmtx, ?_, ?_⟩ <;>
    simp [mergeTransferGetter, hs, hd, actionsInvalidateOrRemove,
      CacheAction.invalidatesOrRemoves]

/-- Witness for C3 at mergeBasket with concrete source and destination. -/
theorem mergeTransfer_covers_both_baskets_witness :
    ∃ f, cacheUpdateMatrix "mergeBasket" = some f ∧
      actionsInvalidateOrRemove (f ⟨none, some "src"⟩ ⟨some "dst"⟩ [])
        (basketKey "src") = true ∧
      actionsInvalidateOrRemove (f ⟨none, some "src"⟩ ⟨some "dst"⟩ [])
        (basketKey "dst") = true :=
  mergeTransfer_covers_both_baskets "mergeBasket" (Or.inl rfl)
    ⟨none, some "src"⟩ ⟨some "dst"⟩ [] "src" "dst" rfl rfl

/-- C8: the cache-update entry looked up from cacheUpdateMatrix is a pure,
deterministic function of the mutation options and response data: its output
does not depend on the current cache, hence not on any ordering between
in-flight mutations (which can differ only in the cache they produce). -/
theorem cacheUpdateGetter_cache_independent
    (m : String) (f : CacheUpdateGetter) (hf : cacheUpdateMatrix m = some f)
    (opts : MutationOptions) (data : ResponseData) (c1 c2 : CacheState) :
    f opts data c1 = f opts data c2 := by
  unfold cacheUpdateMatrix at hf
  split at hf
  · cases hf; rfl
  · split at hf
    · cases hf; rfl
    · split at hf
      · cases hf; rfl
      · split at hf
        · cases hf; rfl
        · cases hf

/-- Witness for C8: the createBasket entry on two different caches. -/
theorem cacheUpdateGetter_cache_independent_witness :
    createBasketGetter ⟨none, none⟩ ⟨some "b1"⟩ [] =
      createBasketGetter ⟨none, none⟩ ⟨some "b1"⟩ [(basketKey "b2", true)] :=
  cacheUpdateGetter_cache_independent "createBasket" createBasketGetter rfl
    ⟨none, none⟩ ⟨some "b1"⟩ [] [(basketKey "b2", true)]

/-- C4: cache updates are applied only after a successful response: when the
client method fails, the cache is exactly the initial cache (no cache
mutation, nothing invalidated), and on success the cache is exactly the
result of applying the recipe of the matrix entry to the initial cache. -/
theorem cache_updates_only_after_success
    (mutation : String) (client : ApiClient)
    (run : MutationOptions → CacheState → CallLog → MutationOutcome)
    (h : useShopperBasketsMutation mutation client = some run)
    (opts : MutationOptions) (cache : CacheState) (log : CallLog) :
    (∀ e, client mutation opts = Except.error e →
      (run opts cache log).cache = cache) ∧
    (∀ data, client mutation opts = Except.ok data →
      ∃ f, cacheUpdateMatrix mutation = some f ∧
        (run opts cache log).cache = applyActions (f opts data cache) cache) := by
  cases hmtx : cacheUpdateMatrix mutation with
  | none => simp [useShopperBasketsMutation, hmtx] at h
  | some f =>
    simp only [useShopperBasketsMutation, hmtx] at h
    injection h with h
    subst h
    constructor
    · intro e he
      simp [useMutation, he]
    · intro data hd
      exact ⟨f, rfl, by simp [useMutation, hd]⟩

/-- Witness for C4: a client that fails with HTTP 400 leaves the cache
unchanged. -/
theorem cache_updates_only_after_success_witness :
    (useMutation ((fun _ _ => Except.error "HTTP 400" : ApiClient) "createBasket")
      "createBasket" createBasketGetter ⟨none, none⟩ [] []).cache = ([] : CacheState) := by
  have h := cache_updates_only_after_success "createBasket"
    (fun _ _ => Except.error "HTTP 400") _ rfl ⟨none, none⟩ [] []
  exact h.1 "HTTP 400" rfl

/-- C5: each invocation of the hook performs exactly one call of the client
method that corresponds to the mutation name: the call log grows by exactly
the one entry recording that method with the supplied options. -/
theorem one_call_per_invocation
    (mutation : String) (client : ApiClient)
    (run : MutationOptions → CacheState → CallLog → MutationOutcome)
    (h : useShopperBasketsMutation mutation client = some run)
    (opts : MutationOptions) (cache : CacheState) (log : CallLog) :
    (run opts cache log).calls = log ++ [(mutation, opts)] := by
  cases hmtx : cacheUpdateMatrix mutation with
  | none => simp [useShopperBasketsMutation, hmtx] at h
  | some f =>
    simp only [useShopperBasketsMutation, hmtx] at h
    injection h with h
    subst h
    cases hres : client mutation opts <;> simp [useMutation, hres]

/-- Witness for C5: one invocation at createBasket appends one call. -/
theorem one_call_per_invocation_witness :
    (useMutation ((fun _ _ => Except.ok ⟨some "b1"⟩ : ApiClient) "createBasket")
      "createBasket" createBasketGetter ⟨none, none⟩ [] []).calls =
      [("createBasket", (⟨none, none⟩ : MutationOptions))] := by
  have h := one_call_per_invocation "createBasket"
    (fun _ _ => Except.ok ⟨some "b1"⟩) _ rfl ⟨none, none⟩ [] []
  exact h

/-- C6: when the client method succeeds, the hook surfaces the success state
whose result data is exactly the response payload. -/
theorem success_state_holds_payload
    (mutation : String) (client : ApiClient)
    (run : MutationOptions → CacheState → CallLog → MutationOutcome)
    (h : useShopperBasketsMutation mutation client = some run)
    (opts : MutationOptions) (cache : CacheState) (log : CallLog)
    (data : ResponseData) (hd : client mutation opts = Except.ok data) :
    (run opts cache log).state = ⟨MutationStatus.success, some data, none⟩ := by
  cases hmtx : cacheUpdateMatrix mutation with
  | none => simp [useShopperBasketsMutation, hmtx] at h
  | some f =>
    simp only [useShopperBasketsMutation, hmtx] at h
    injection h with h
    subst h
    simp [useMutation, hd]

/-- Witness for C6: a successful createBasket invocation surfaces the
payload. -/
theorem success_state_holds_payload_witness :
    (useMutation ((fun _ _ => Except.ok ⟨some "b1"⟩ : ApiClient) "createBasket")
      "createBasket" createBasketGetter ⟨none, none⟩ [] []).state =
      ⟨MutationStatus.success, some ⟨some "b1"⟩, none⟩ :=
  success_state_holds_payload "createBasket"
    (fun _ _ => Except.ok ⟨some "b1"⟩) _ rfl ⟨none, none⟩ [] [] ⟨some "b1"⟩ rfl

/-- C7: when the client method fails, the hook surfaces the error state that
carries the underlying client error unmodified and no result data. -/
theorem error_state_surfaces_error
    (mutation : String) (client : ApiClient)
    (run : MutationOptions → CacheState → CallLog → MutationOutcome)
    (h : useShopperBasketsMutation mutation client = some run)
    (opts : MutationOptions) (cache : CacheState) (log : CallLog)
    (e : String) (he : client mutation opts = Except.error e) :
    (run opts cache log).state = ⟨MutationStatus.error, none, some e⟩ := by
  cases hmtx : cacheUpdateMatrix mutation with
  | none => simp [useShopperBasketsMutation, hmtx] at h
  | some f =>
    simp only [useShopperBasketsMutation, hmtx] at h
    injection h with h
    subst h
    simp [useMutation, he]

/-- Witness for C7: a createBasket invocation against HTTP 400 surfaces that
error and no data. -/
theorem error_state_surfaces_error_witness :
    (useMutation ((fun _ _ => Except.error "HTTP 400" : ApiClient) "createBasket")
      "createBasket" createBasketGetter ⟨none, none⟩ [] []).state =
      ⟨MutationStatus.error, none, some "HTTP 400"⟩ :=
  error_state_surfaces_error "createBasket"
    (fun _ _ => Except.error "HTTP 400") _ rfl ⟨none, none⟩ [] [] "HTTP 400" rfl

end PwaKit
